import Mathlib

set_option maxRecDepth 40000

/-
Verification of the WS2812B SPI LED-strip driver (encoder, frame buffer,
transmit lifecycle) against its natural-language specification.

The driver encodes each 8-bit color channel into 3 SPI bytes (one color data
bit becomes the 3 symbol bits 110 or 100), stores pixels in GRB order at
9-byte slots of a transmit buffer of tx_buffer_len bytes, and sends the whole
buffer (data region followed by 100 zero reset-padding bytes) in one write.

The buffer is modelled as a function from byte offsets to byte values, and
consecutive byte stores (ptr[0] = ..; ptr[1] = ..; ..., and memset) as a
region update writeBytes.  The repository contains several near-duplicate
driver variants; where a claim names a specific variant, that variant is
embedded separately (set_pixel_v005, set_pixel_v006_writes).
-/

-- ===================== Definitions (from the source) =====================

/-- Configuration constant BITS_PER_PIXEL of the driver sources. -/
def BITS_PER_PIXEL : Nat := 24

/-- Configuration constant SPI_BITS_PER_LED_BIT of the driver sources. -/
def SPI_BITS_PER_LED_BIT : Nat := 3

/-- tx_buffer_len from spi_init: data length
(LED_COUNT * BITS_PER_PIXEL * SPI_BITS_PER_LED_BIT) / 8 plus 100 bytes of
reset padding.  LED_COUNT is a per-file #define (186 or 50), kept here as
the parameter ledCount. -/
def tx_buffer_len (ledCount : Nat) : Nat :=
  ledCount * BITS_PER_PIXEL * SPI_BITS_PER_LED_BIT / 8 + 100

/-- Store the byte list vs at consecutive offsets off, off+1, ... of the
memory mem: the model of the C stores ptr[0] = v0; ptr[1] = v1; ... and of
memset over a region. -/
def writeBytes (mem : Nat → Nat) (off : Nat) (vs : List Nat) : Nat → Nat :=
  fun j => if off ≤ j ∧ j < off + vs.length then vs.getD (j - off) 0 else mem j

/-- The encoding loop of encode_byte:
for (b = 7; b >= 0; b--) p = (p << 3) | (((val >> b) & 1) ? 0b110 : 0b100).
The fold counter k runs 0..7 so the bit index b is 7 - k. -/
def encode_loop (val : Nat) : Nat :=
  (List.range 8).foldl
    (fun p k => p * 8 + (if val / 2 ^ (7 - k) % 2 = 1 then 0b110 else 0b100)) 0

/-- Split the 24-bit pattern p into 3 bytes, most significant first:
ptr[0] = (p >> 16) & 0xFF; ptr[1] = (p >> 8) & 0xFF; ptr[2] = p & 0xFF. -/
def bytes3 (p : Nat) : List Nat :=
  [p / 65536 % 256, p / 256 % 256, p % 256]

/-- encode_byte (part_006 lines 76-93, identical in part_007): encodes one
color byte into the 3 SPI bytes of its 24 symbol bits. -/
def encode_byte (val : Nat) : List Nat :=
  bytes3 (encode_loop val)

/-- Driver state: the transmit buffer contents (tx_buffer, as a byte memory
indexed by offset) and the log of frames handed to write(), oldest first. -/
structure Device where
  mem : Nat → Nat
  sent : List (List Nat)

/-- set_pixel (part_007 lines 125-141; part_006 lines 95-110 is identical
except that it omits the index < 0 guard, which is modelled separately in
set_pixel_v006_writes): extract r, g, b from the 0x00RRGGBB color, and write
encode_byte(g), encode_byte(r), encode_byte(b) at byte offsets
index*9 .. index*9+8 of tx_buffer.  No bus write happens here. -/
def set_pixel (ledCount : Nat) (index : Int) (color : Nat) (d : Device) : Device :=
  if index < 0 ∨ (ledCount : Int) ≤ index then d
  else
    { d with
        mem := writeBytes d.mem (9 * index.toNat)
          (encode_byte (color / 256 % 256) ++ encode_byte (color / 65536 % 256)
            ++ encode_byte (color % 256)) }

/-- black_pattern of fill_black (part_007 line 98): the 3 SPI bytes encoding
an all-zero color byte. -/
def black_pattern : List Nat := [0x92, 0x49, 0x24]

/-- The fill loop of fill_black (part_007 lines 101-106): iteration i writes
black_pattern at offset i*3; fill_black_loop mem n is the memory after
iterations 0 .. n-1. -/
def fill_black_loop (mem : Nat → Nat) : Nat → (Nat → Nat)
  | 0 => mem
  | n + 1 => writeBytes (fill_black_loop mem n) (3 * n) black_pattern

/-- fill_black (part_007 lines 94-111): fill the LED_COUNT*9-byte data region
with black_pattern (the loop runs LED_COUNT*3 times writing 3 bytes each),
then memset the trailing padding region [LED_COUNT*9, tx_buffer_len) to 0. -/
def fill_black (ledCount : Nat) (mem : Nat → Nat) : Nat → Nat :=
  writeBytes (fill_black_loop mem (ledCount * 3)) (ledCount * 9)
    (List.replicate (tx_buffer_len ledCount - ledCount * 9) 0)

/-- The byte sequence handed to write(spi_fd, tx_buffer, tx_buffer_len). -/
def frame (ledCount : Nat) (mem : Nat → Nat) : List Nat :=
  (List.range (tx_buffer_len ledCount)).map mem

/-- Result of one call of the C function show(): the device afterwards, the
stderr output produced by perror, and the (void) return value. -/
structure ShowResult where
  dev : Device
  stderrOut : List String
  retVal : Unit

/-- show (part_006 lines 112-116; named show_op because show is a Lean
keyword): performs exactly one write() of the whole buffer; writeResult is
the byte count returned by that write (negative on error).  Only a negative
result triggers perror("SPI Write failed"); the buffer is not touched and
the C return type is void. -/
def show_op (ledCount : Nat) (d : Device) (writeResult : Int) : ShowResult :=
  { dev := { d with sent := d.sent ++ [frame ledCount d.mem] }
    stderrOut := if writeResult < 0 then ["SPI Write failed"] else []
    retVal := () }

/-- The blue-channel loop of set_pixel in part_005 (line 164):
for(int b=7; b>=0; b--) p = (p << 3) | (((b >> b) & 1) ? 0b110 : 0b100).
The loop variable b shadows the blue channel variable b, so the tested bit
is (b >> b) & 1 with b the loop counter, which is 0 for every b in 7..0. -/
def blue_loop_v005 : Nat :=
  (List.range 8).foldl
    (fun p k => p * 8 + (if (7 - k) / 2 ^ (7 - k) % 2 = 1 then 0b110 else 0b100)) 0

/-- set_pixel of part_005 (lines 85-166), LED_COUNT = 50 there.  After the
guard (index >= LED_COUNT, modelled here on the non-negative range; the
missing negative-index guard of this family is modelled in
set_pixel_v006_writes) it runs memset(ptr, 0, 9) and then stores the green,
red and blue channel patterns at ptr, ptr+3, ptr+6.  The green and red loops
read the channel bytes, but the blue loop is blue_loop_v005.  The grb
variable and the first for loop of the source (lines 109-123) compute
nothing that is stored, and are omitted. -/
def set_pixel_v005 (ledCount index color : Nat) (mem : Nat → Nat) : Nat → Nat :=
  if ledCount ≤ index then mem
  else
    writeBytes
      (writeBytes
        (writeBytes
          (writeBytes mem (9 * index) (List.replicate 9 0))
          (9 * index) (bytes3 (encode_loop (color / 256 % 256))))
        (9 * index + 3) (bytes3 (encode_loop (color / 65536 % 256))))
      (9 * index + 6) (bytes3 blue_loop_v005)

/-- The list of (offset, value) byte stores performed at consecutive
offsets off, off+1, ... for the byte list vs. -/
def writesAt (off : Int) : List Nat → List (Int × Nat)
  | [] => []
  | v :: vs => (off, v) :: writesAt (off + 1) vs

/-- Apply a list of byte stores, in order, to an Int-indexed memory (the
heap around tx_buffer; the buffer occupies offsets 0 .. tx_buffer_len-1). -/
def applyWrites (mem : Int → Nat) : List (Int × Nat) → (Int → Nat)
  | [] => mem
  | w :: ws => applyWrites (fun j => if j = w.1 then w.2 else mem j) ws

/-- set_pixel of part_006 (lines 95-110), LED_COUNT = 186 there, expressed
as the list of byte stores it performs relative to the start of tx_buffer.
Its guard is only (index >= LED_COUNT): there is no index < 0 check, so a
negative index produces stores at offsets 9*index .. 9*index+8, which are
before the start of the buffer. -/
def set_pixel_v006_writes (ledCount : Nat) (index : Int) (color : Nat) :
    List (Int × Nat) :=
  if (ledCount : Int) ≤ index then []
  else
    writesAt (9 * index)
      (encode_byte (color / 256 % 256) ++ encode_byte (color / 65536 % 256)
        ++ encode_byte (color % 256))

/-- Modelled from the spec and claim C5: the decoder that reverses the
3-symbol-bit grouping.  From the 3 encoded bytes, rebuild the 24-bit word
(MSB first), and for each of the eight consecutive 3-bit groups g = 0..7
(group g occupying bits 23-3g .. 21-3g) take its middle bit, bit 22-3g,
assembling the result MSB first. -/
def decode3 (bytes : List Nat) : Nat :=
  (List.range 8).foldl
    (fun acc g =>
      acc * 2 +
        (bytes.getD 0 0 * 65536 + bytes.getD 1 0 * 256 + bytes.getD 2 0)
          / 2 ^ (22 - 3 * g) % 2) 0

-- ===================== Theorems =====================

/-- Helper: every entry of a zero-replicate list reads back as 0. -/
theorem getD_replicate_zero (n i : Nat) : (List.replicate n 0).getD i 0 = 0 := by
  induction n generalizing i with
  | zero => simp [List.getD]
  | succ n ih =>
    cases i with
    | zero => simp [List.replicate]
    | succ i =>
      rw [List.replicate, List.getD_cons_succ]
      exact ih i

/-- Helper: a store of a byte list does not change offsets outside the
stored region. -/
theorem writeBytes_outside (mem : Nat → Nat) (off : Nat) (vs : List Nat)
    (j : Nat) (h : j < off ∨ off + vs.length ≤ j) :
    writeBytes mem off vs j = mem j := by
  simp only [writeBytes]
  rw [if_neg]
  omega

/-- Helper: the 9 bytes written by set_pixel have length 9. -/
theorem enc3_length (a b c : Nat) :
    (encode_byte a ++ encode_byte b ++ encode_byte c).length = 9 := rfl

/-- Helper: after n iterations of the fill loop, every offset below 3*n
holds the black pattern byte for its position, and every other offset is
untouched. -/
theorem fill_black_loop_eval (mem : Nat → Nat) (n j : Nat) :
    fill_black_loop mem n j =
      if j < 3 * n then black_pattern.getD (j % 3) 0 else mem j := by
  induction n with
  | zero => simp [fill_black_loop]
  | succ n ih =>
    show writeBytes (fill_black_loop mem n) (3 * n) black_pattern j = _
    by_cases h1 : 3 * n ≤ j ∧ j < 3 * n + black_pattern.length
    · have hlen : black_pattern.length = 3 := rfl
      rw [hlen] at h1
      simp only [writeBytes, black_pattern, List.length_cons, List.length_nil]
      rw [if_pos (by omega : 3 * n ≤ j ∧ j < 3 * n + (0 + 1 + 1 + 1))]
      rw [if_pos (by omega : j < 3 * (n + 1))]
      have hsub : j - 3 * n = j % 3 := by omega
      rw [hsub]
    · have hlen : black_pattern.length = 3 := rfl
      rw [hlen] at h1
      rw [writeBytes_outside _ _ _ _ (by rw [hlen]; omega)]
      rw [ih]
      by_cases h2 : j < 3 * n
      · rw [if_pos h2, if_pos (by omega)]
      · rw [if_neg h2, if_neg (by omega)]

/-- C3: after the blank step of clear (fill_black, which blank_and_render
runs before the unchanged-buffer write of show), every pixel slot i holds
the encoded all-zero-data pattern 0x92, 0x49, 0x24 repeated three times
(byte k of the slot is black_pattern entry k mod 3, not the byte 0x00), and
every byte of the trailing reset-padding region is 0. -/
theorem fill_black_spec (ledCount : Nat) (mem : Nat → Nat) :
    (∀ i, i < ledCount → ∀ k, k < 9 →
        fill_black ledCount mem (9 * i + k) = black_pattern.getD (k % 3) 0) ∧
    (∀ j, ledCount * 9 ≤ j → j < tx_buffer_len ledCount →
        fill_black ledCount mem j = 0) := by
  have hlen : tx_buffer_len ledCount = ledCount * 9 + 100 := by
    simp only [tx_buffer_len, BITS_PER_PIXEL, SPI_BITS_PER_LED_BIT]
    omega
  constructor
  · intro i hi k hk
    show writeBytes _ (ledCount * 9) _ (9 * i + k) = _
    rw [writeBytes_outside _ _ _ _ (by left; omega)]
    rw [fill_black_loop_eval]
    rw [if_pos (by omega)]
    have : (9 * i + k) % 3 = k % 3 := by omega
    rw [this]
  · intro j hj1 hj2
    show writeBytes _ (ledCount * 9) _ j = _
    simp only [writeBytes, List.length_replicate]
    rw [if_pos (by omega)]
    exact getD_replicate_zero _ _

/-- C3 witness: at the source configuration LED_COUNT = 186, byte 0 of the
cleared buffer is 0x92 and the first padding byte (offset 1674 = 186*9)
is 0. -/
theorem fill_black_spec_witness :
    fill_black 186 (fun _ => 0) 0 = 0x92 ∧ fill_black 186 (fun _ => 0) 1674 = 0 :=
  ⟨by
    have h := (fill_black_spec 186 (fun _ => 0)).1 0 (by decide) 0 (by decide)
    simpa [black_pattern] using h,
   (fill_black_spec 186 (fun _ => 0)).2 1674 (by decide) (by decide)⟩

/-- C7: encode_byte maps 0x00 to the bytes 0x92, 0x49, 0x24 and 0xFF to the
bytes 0xDB, 0x6D, 0xB6. -/
theorem encode_byte_extremes :
    encode_byte 0x00 = [0x92, 0x49, 0x24] ∧
    encode_byte 0xFF = [0xDB, 0x6D, 0xB6] := by decide

/-- C5: decoding the 3-byte output of encode_byte (taking, MSB first, the
middle bit of each of the eight consecutive 3-bit groups of the 24 output
bits) returns the input byte, for every byte value; encode_byte is a plain
function of its argument, so identical input yields identical output. -/
theorem encode_byte_roundtrip :
    ∀ v : Fin 256, decode3 (encode_byte v.val) = v.val := by decide

/-- C9: for every input byte and every group index g, the 3-bit group g of
the 24-bit output of encode_byte (bits 23-3g down to 21-3g of the word
formed from its 3 bytes) starts with bit 1 and ends with bit 0. -/
theorem encode_groups_shape :
    ∀ v : Fin 256, ∀ g : Fin 8,
      ((encode_byte v.val).getD 0 0 * 65536 + (encode_byte v.val).getD 1 0 * 256
          + (encode_byte v.val).getD 2 0) / 2 ^ (23 - 3 * g.val) % 2 = 1 ∧
      ((encode_byte v.val).getD 0 0 * 65536 + (encode_byte v.val).getD 1 0 * 256
          + (encode_byte v.val).getD 2 0) / 2 ^ (21 - 3 * g.val) % 2 = 0 := by
  decide

/-- C1: in part_005, set_pixel(0, 0x0000FF) (blue channel 0xFF, LED_COUNT
50) stores 0x92, 0x49, 0x24 at slot bytes 6..8 - the encoding of 0x00, not
the blue channel encoding encode_byte 0xFF = 0xDB, 0x6D, 0xB6 - because the
blue encoding loop shadows the blue channel variable. -/
theorem set_pixel_v005_blue_bug :
    set_pixel_v005 50 0 0xFF (fun _ => 0) 6 = 0x92 ∧
    set_pixel_v005 50 0 0xFF (fun _ => 0) 7 = 0x49 ∧
    set_pixel_v005 50 0 0xFF (fun _ => 0) 8 = 0x24 ∧
    encode_byte 0xFF = [0xDB, 0x6D, 0xB6] := by decide

/-- C2: in part_006 (LED_COUNT 186), set_pixel(-1, 0xFFFFFF) is not
rejected: it performs 9 byte stores, all at offsets before the start of
tx_buffer (offsets -9 .. -1), e.g. the heap byte at offset -9 becomes 0xDB;
the buffer region [0, tx_buffer_len) is reached by pointer arithmetic from
a negative slot index. -/
theorem set_pixel_v006_negative_oob :
    applyWrites (fun _ => 0) (set_pixel_v006_writes 186 (-1) 0xFFFFFF) (-9) = 0xDB ∧
    (∀ w ∈ set_pixel_v006_writes 186 (-1) 0xFFFFFF, w.1 < 0) ∧
    set_pixel_v006_writes 186 (-1) 0xFFFFFF ≠ [] := by decide

/-- C6: with LED_COUNT = 3, starting from the blanked buffer (fill_black),
set_pixel(1, 0xFF0000) followed by show transmits exactly: 9 zero-pattern
bytes for pixel 0, then 0x92,0x49,0x24, 0xDB,0x6D,0xB6, 0x92,0x49,0x24 for
pixel 1 (green 0, red 255, blue 0), then 9 zero-pattern bytes for pixel 2,
then 100 zero padding bytes. -/
theorem scenario_three_leds :
    (show_op 3
        (set_pixel 3 1 0xFF0000
          { mem := fill_black 3 (fun _ => 0), sent := [] }) 127).dev.sent =
      [[0x92, 0x49, 0x24, 0x92, 0x49, 0x24, 0x92, 0x49, 0x24,
        0x92, 0x49, 0x24, 0xDB, 0x6D, 0xB6, 0x92, 0x49, 0x24,
        0x92, 0x49, 0x24, 0x92, 0x49, 0x24, 0x92, 0x49, 0x24] ++
        List.replicate 100 0] := by decide

/-- C8: for an in-range index, set_pixel changes at most the 9 bytes at
offsets 9*index .. 9*index+8 of the buffer - every byte outside that slot
reads back unchanged - and hands nothing to the bus (the write log is
unchanged). -/
theorem set_pixel_only_slot (ledCount : Nat) (index : Int) (color : Nat)
    (d : Device) (h0 : 0 ≤ index) (h1 : index < (ledCount : Int)) :
    (∀ j : Nat, j < 9 * index.toNat ∨ 9 * index.toNat + 9 ≤ j →
        (set_pixel ledCount index color d).mem j = d.mem j) ∧
    (set_pixel ledCount index color d).sent = d.sent := by
  have hguard : ¬(index < 0 ∨ (ledCount : Int) ≤ index) := by omega
  constructor
  · intro j hj
    simp only [set_pixel, if_neg hguard]
    exact writeBytes_outside _ _ _ j (by rw [enc3_length]; omega)
  · simp only [set_pixel, if_neg hguard]

/-- C8 witness: with LED_COUNT 186, writing pixel 0 leaves byte 9 (the first
byte of pixel 1) at its old value 5 and sends nothing. -/
theorem set_pixel_only_slot_witness :
    (set_pixel 186 0 0xFFFFFF { mem := fun _ => 5, sent := [] }).mem 9 = 5 ∧
    (set_pixel 186 0 0xFFFFFF { mem := fun _ => 5, sent := [] }).sent = [] :=
  ⟨(set_pixel_only_slot 186 0 0xFFFFFF
      { mem := fun _ => 5, sent := [] } (by decide) (by decide)).1 9 (by decide),
   (set_pixel_only_slot 186 0 0xFFFFFF
      { mem := fun _ => 5, sent := [] } (by decide) (by decide)).2⟩

/-- C10: set_pixel reads only the low 24 bits of its color argument: two
colors that agree modulo 2^24 produce identical devices, for every index. -/
theorem set_pixel_ignores_high_bits (ledCount : Nat) (index : Int)
    (c1 c2 : Nat) (d : Device) (h : c1 % 16777216 = c2 % 16777216) :
    set_pixel ledCount index c1 d = set_pixel ledCount index c2 d := by
  have hg : c1 / 256 % 256 = c2 / 256 % 256 := by omega
  have hr : c1 / 65536 % 256 = c2 / 65536 % 256 := by omega
  have hb : c1 % 256 = c2 % 256 := by omega
  simp only [set_pixel, hg, hr, hb]

/-- C10 witness: colors 0xFF112233 and 0x00112233 agree on their low 24 bits
and produce the same device at index 1. -/
theorem set_pixel_ignores_high_bits_witness :
    (0xFF112233 : Nat) % 16777216 = (0x00112233 : Nat) % 16777216 ∧
    set_pixel 186 1 0xFF112233 { mem := fun _ => 0, sent := [] } =
      set_pixel 186 1 0x00112233 { mem := fun _ => 0, sent := [] } :=
  ⟨by decide,
   set_pixel_ignores_high_bits 186 1 0xFF112233 0x00112233
     { mem := fun _ => 0, sent := [] } (by decide)⟩

/-- C4 counterexample: a short write (write returned 1 of the 1774 buffer
bytes at LED_COUNT 186) produces no stderr diagnostic at all, and the (void)
return value of show is the same as for a complete write of 1774 bytes: the
caller cannot observe the transmission failure in the result of show. -/
theorem show_partial_write_unreported :
    (show_op 186 { mem := fun _ => 0, sent := [] } 1).stderrOut = [] ∧
    (show_op 186 { mem := fun _ => 0, sent := [] } 1).retVal =
      (show_op 186 { mem := fun _ => 0, sent := [] } 1774).retVal :=
  ⟨rfl, rfl⟩

/-- C4 amended: show performs exactly one write of the frame (no automatic
retry), never changes the buffer, reports only a negative write result and
only as a stderr diagnostic, and its void return value is independent of the
write outcome, so an explicit later retry of show resends the same frame. -/
theorem show_no_retry_buffer_preserved (ledCount : Nat) (d : Device)
    (writeResult : Int) :
    (show_op ledCount d writeResult).dev.mem = d.mem ∧
    (show_op ledCount d writeResult).dev.sent = d.sent ++ [frame ledCount d.mem] ∧
    (show_op ledCount d writeResult).stderrOut =
      (if writeResult < 0 then ["SPI Write failed"] else []) ∧
    (show_op ledCount d writeResult).retVal = (show_op ledCount d 0).retVal :=
  ⟨rfl, rfl, rfl, rfl⟩
